import Mathlib

/-!
Shallow embedding of the TWTS background laser-field generator
(`src/picongpu/include/fields/background/templates/bgrTWTS.hpp`) over exact
real/complex arithmetic, together with theorems settling the specification
claims about it.  Machine floating point is modelled by `ℝ` (the claims under
study are algebraic/structural, stated by the spec "in exact arithmetic"),
and `PMacc::math::Complex` by `ℂ`.
-/

namespace PicongpuTWTS

noncomputable section

open Real

/-- Model of `float3_64` / `floatD_64` with `simDim = 3`: a 3-component real
vector with fields named after the source accessors x(), y(), z(). -/
@[ext]
structure Vec3 where
  x : ℝ
  y : ℝ
  z : ℝ

/-- Model of `floatD_64` with `simDim = 2`: a 2-component real vector. -/
@[ext]
structure Vec2 where
  x : ℝ
  y : ℝ

instance : Add Vec3 := ⟨fun a b => ⟨a.x + b.x, a.y + b.y, a.z + b.z⟩⟩

instance : Sub Vec3 := ⟨fun a b => ⟨a.x - b.x, a.y - b.y, a.z - b.z⟩⟩

instance : Neg Vec3 := ⟨fun a => ⟨-a.x, -a.y, -a.z⟩⟩

instance : Add Vec2 := ⟨fun a b => ⟨a.x + b.x, a.y + b.y⟩⟩

instance : Sub Vec2 := ⟨fun a b => ⟨a.x - b.x, a.y - b.y⟩⟩

instance : Neg Vec2 := ⟨fun a => ⟨-a.x, -a.y⟩⟩

/-- Componentwise product, modelling `PMacc` vector `operator*` as used in
`fieldPositions_SI[i] = ... * cellDimensions`. -/
def Vec3.cmul (a b : Vec3) : Vec3 := ⟨a.x * b.x, a.y * b.y, a.z * b.z⟩

/-- Componentwise product for 2-component vectors. -/
def Vec2.cmul (a b : Vec2) : Vec2 := ⟨a.x * b.x, a.y * b.y⟩

/-- Model of `DataSpace<DIM3>`: an integer cell index. -/
structure Idx3 where
  x : ℤ
  y : ℤ
  z : ℤ

/-- Model of `DataSpace<DIM2>`: an integer cell index. -/
structure Idx2 where
  x : ℤ
  y : ℤ

/-- Model of `precisionCast` of an integer cell index to a floating vector
(value preserving in exact arithmetic). -/
def Idx3.toVec (i : Idx3) : Vec3 := ⟨(i.x : ℝ), (i.y : ℝ), (i.z : ℝ)⟩

/-- Model of `precisionCast` of a 2-D integer cell index. -/
def Idx2.toVec (i : Idx2) : Vec2 := ⟨(i.x : ℝ), (i.y : ℝ)⟩

/-- Half of the global domain size in cells (`subGrid.getGlobalDomain().size / 2`)
for a 3-D simulation. -/
structure Nat3 where
  x : ℕ
  y : ℕ
  z : ℕ

/-- Half of the global domain size in cells for a 2-D simulation. -/
structure Nat2 where
  x : ℕ
  y : ℕ

/-- The compile-time simulation constants consumed by the source file
(members of `picongpu::SI` and the `UNIT_LENGTH` scale), supplied externally
by the surrounding simulation and treated as read-only parameters here. -/
structure SimConstants where
  SPEED_OF_LIGHT_SI : ℝ
  DELTA_T_SI : ℝ
  CELL_WIDTH_SI : ℝ
  CELL_HEIGHT_SI : ℝ
  CELL_DEPTH_SI : ℝ
  UNIT_LENGTH : ℝ

/-- Modelled from the spec: the collaborator-supplied SI speed of light
`picongpu::SI::SPEED_OF_LIGHT_SI`, whose definition is outside this source
file; the spec lists "the speed of light" among the collaborator-supplied
inputs, i.e. the standard SI value in m/s. -/
def SPEED_OF_LIGHT_SI : ℝ := 2.99792458e8

/-- Model of C `atan2(y, x)`: the argument of the point `(x, y)`, with the
usual principal range `(-π, π]` and `atan2 0 0 = 0` (exact-arithmetic
semantics of `pmMath::atan2`). -/
def atan2 (y x : ℝ) : ℝ := Complex.arg (x + y * Complex.I)

/-- The pulse-front tilt angle computed identically at the top of
`calcTWTSEx`, `calcTWTSBy` and `calcTWTSBz`:
`alphaTilt = atan2(1 - beta0*cos(phi), beta0*sin(phi))`, `phiT = 2*alphaTilt`. -/
def phiT (beta0 phi : ℝ) : ℝ :=
  2 * atan2 (1 - beta0 * Real.cos phi) (beta0 * Real.sin phi)

/-- The Rotation Transform `detail::RotateField<Vector<T,3>>::operator()`:
keeps the x-component and applies `RotationMatrix[PI/2+phi]` to `(y, z)`. -/
def rotateField3 (v : Vec3) (phi : ℝ) : Vec3 :=
  ⟨v.x,
   -Real.sin phi * v.y - Real.cos phi * v.z,
   Real.cos phi * v.y - Real.sin phi * v.z⟩

/-- The Rotation Transform `detail::RotateField<Vector<T,2>>::operator()`:
the 2-D variant computing only the last two components of the corresponding
3-D rotation, with the 2-D x-component standing in for the model z-axis. -/
def rotateField2 (v : Vec2) (phi : ℝ) : Vec2 :=
  ⟨-Real.sin phi * v.y - Real.cos phi * v.x,
   Real.cos phi * v.y - Real.sin phi * v.x⟩

/-- The back-rotation `RotationMatrix[-(PI/2+phi)]` applied to the `(y, z)`
field components, exactly as recombined in
`TWTSFieldB::getTWTSBfield_Normalized<DIM3>`
(`By_rot = -sin(phi)*By + cos(phi)*Bz`, `Bz_rot = -cos(phi)*By - sin(phi)*Bz`),
expressed as a single-position vector transform. -/
def rotateFieldBack3 (v : Vec3) (phi : ℝ) : Vec3 :=
  ⟨v.x,
   -Real.sin phi * v.y + Real.cos phi * v.z,
   -Real.cos phi * v.y - Real.sin phi * v.z⟩

/-- Time-Delay Calculator `detail::get_tdelay_SI<DIM3>::operator()`. -/
def get_tdelay_SI_DIM3 (C : SimConstants) (auto_tdelay : Bool)
    (tdelay_user_SI : ℝ) (halfSimSize : Nat3) (pulselength_SI : ℝ)
    (focus_y_SI : ℝ) (phi : ℝ) (beta_0 : ℝ) : ℝ :=
  if auto_tdelay then
    let eta : ℝ := π / 2 - phi / 2
    let y1 : ℝ := (halfSimSize.z : ℝ) * C.CELL_DEPTH_SI * |Real.cos eta|
    let m : ℝ := 3
    let y2 : ℝ := m * (pulselength_SI * C.SPEED_OF_LIGHT_SI) / Real.cos eta
    let y3 : ℝ := focus_y_SI
    let tdelay : ℝ := (y1 + y2 + y3) / (C.SPEED_OF_LIGHT_SI * beta_0)
    tdelay
  else tdelay_user_SI

/-- Time-Delay Calculator `detail::get_tdelay_SI<DIM2>::operator()`, which
uses the half width `halfSimSize[0] * CELL_WIDTH_SI` instead of the depth. -/
def get_tdelay_SI_DIM2 (C : SimConstants) (auto_tdelay : Bool)
    (tdelay_user_SI : ℝ) (halfSimSize : Nat2) (pulselength_SI : ℝ)
    (focus_y_SI : ℝ) (phi : ℝ) (beta_0 : ℝ) : ℝ :=
  if auto_tdelay then
    let eta : ℝ := π / 2 - phi / 2
    let y1 : ℝ := (halfSimSize.x : ℝ) * C.CELL_WIDTH_SI * |Real.cos eta|
    let m : ℝ := 3
    let y2 : ℝ := m * (pulselength_SI * C.SPEED_OF_LIGHT_SI) / Real.cos eta
    let y3 : ℝ := focus_y_SI
    let tdelay : ℝ := (y1 + y2 + y3) / (C.SPEED_OF_LIGHT_SI * beta_0)
    tdelay
  else tdelay_user_SI

/-- The immutable constructor parameters stored as members by `TWTSFieldE`
and `TWTSFieldB` (the two classes have identical member lists). -/
structure TWTSParams where
  focus_y_SI : ℝ
  wavelength_SI : ℝ
  pulselength_SI : ℝ
  w_x_SI : ℝ
  w_y_SI : ℝ
  phi : ℝ
  beta_0 : ℝ
  tdelay_user_SI : ℝ
  auto_tdelay : Bool

/-- Principal complex square root, modelling `pmMath::sqrt` on complex
arguments. -/
def csqrt (z : ℂ) : ℂ := z ^ ((1 : ℂ) / 2)

/-- Complex power with a real exponent, modelling `pmMath::pow(z, r)`. -/
def cpowr (z : ℂ) (r : ℝ) : ℂ := z ^ ((r : ℝ) : ℂ)

/-- Transcription of `TWTSFieldE::calcTWTSEx`: the longitudinal electric
field closed form, evaluated over exact real/complex arithmetic.  Every
helper variable mirrors the homonymous `helpVar` of the source, in the same
grouping and operation order. -/
def calcTWTSEx (C : SimConstants) (p : TWTSParams) (pos : Vec3)
    (time : ℝ) : ℝ :=
  let UNIT_SPEED : ℝ := C.SPEED_OF_LIGHT_SI
  let UNIT_TIME : ℝ := C.DELTA_T_SI
  let UNIT_LENGTH : ℝ := UNIT_TIME * UNIT_SPEED
  let beta0 : ℝ := p.beta_0
  let phiReal : ℝ := p.phi
  let alphaTilt : ℝ :=
    atan2 (1 - beta0 * Real.cos phiReal) (beta0 * Real.sin phiReal)
  let phiTv : ℝ := 2 * alphaTilt
  let cspeedR : ℝ := 1
  let lambda0R : ℝ := p.wavelength_SI / UNIT_LENGTH
  let om0R : ℝ := 2 * π * cspeedR / lambda0R * UNIT_TIME
  let tauGR : ℝ := p.pulselength_SI * 2 / UNIT_TIME
  let w0R : ℝ := p.w_x_SI / UNIT_LENGTH
  let rho0R : ℝ := π * w0R * w0R / lambda0R / UNIT_LENGTH
  let wyR : ℝ := p.w_y_SI / UNIT_LENGTH
  let kR : ℝ := 2 * π / lambda0R * UNIT_LENGTH
  let I : ℂ := Complex.I
  let cspeed : ℂ := (cspeedR : ℂ)
  let om0 : ℂ := (om0R : ℂ)
  let tauG : ℂ := (tauGR : ℂ)
  let rho0 : ℂ := (rho0R : ℂ)
  let wy : ℂ := (wyR : ℂ)
  let k : ℂ := (kR : ℂ)
  let x : ℂ := ((pos.x / UNIT_LENGTH : ℝ) : ℂ)
  let y : ℂ := ((pos.y / UNIT_LENGTH : ℝ) : ℂ)
  let z : ℂ := ((pos.z / UNIT_LENGTH : ℝ) : ℂ)
  let t : ℂ := ((time / UNIT_TIME : ℝ) : ℂ)
  let sinPhi : ℂ := ((Real.sin phiTv : ℝ) : ℂ)
  let cosPhi : ℂ := ((Real.cos phiTv : ℝ) : ℂ)
  let sinPhi2 : ℂ := ((Real.sin (phiTv / 2) : ℝ) : ℂ)
  let cosPhi2 : ℂ := ((Real.cos (phiTv / 2) : ℝ) : ℂ)
  let tanPhi2 : ℂ := ((Real.tan (phiTv / 2) : ℝ) : ℂ)
  let tanPol : ℂ := ((Real.tan (π / 2 - phiTv) : ℝ) : ℂ)
  let helpVar1 : ℂ := I * rho0 - y * cosPhi - z * sinPhi
  let helpVar2 : ℂ := (-I) * cspeed * om0 * tauG * tauG
      - y * cosPhi / cosPhi2 / cosPhi2 * tanPhi2
      - 2 * z * tanPhi2 * tanPhi2
  let helpVar3 : ℂ := I * rho0 - y * cosPhi - z * sinPhi
  let helpVar4 : ℂ := (
      -(cspeed * cspeed * k * om0 * tauG * tauG * wy * wy * x * x)
      - 2 * cspeed * cspeed * om0 * t * t * wy * wy * rho0
      + (2 * I) * cspeed * cspeed * om0 * om0 * t * tauG * tauG * wy * wy * rho0
      - 2 * cspeed * cspeed * om0 * tauG * tauG * y * y * rho0
      + 4 * cspeed * om0 * t * wy * wy * z * rho0
      - (2 * I) * cspeed * om0 * om0 * tauG * tauG * wy * wy * z * rho0
      - 2 * om0 * wy * wy * z * z * rho0
      - (8 * I) * om0 * wy * wy * y * (cspeed * t - z) * z * sinPhi2 * sinPhi2
      + (8 * I) / sinPhi * (
            2 * z * z * (cspeed * om0 * t * wy * wy + I * cspeed * y * y
                - om0 * wy * wy * z)
            + y * (
                cspeed * k * wy * wy * x * x
                - (2 * I) * cspeed * om0 * t * wy * wy * rho0
                + 2 * cspeed * y * y * rho0
                + (2 * I) * om0 * wy * wy * z * rho0
              ) * tanPol / sinPhi
          ) * sinPhi2 * sinPhi2 * sinPhi2 * sinPhi2
      - (2 * I) * cspeed * cspeed * om0 * t * t * wy * wy * z * sinPhi
      - 2 * cspeed * cspeed * om0 * om0 * t * tauG * tauG * wy * wy * z * sinPhi
      - (2 * I) * cspeed * cspeed * om0 * tauG * tauG * y * y * z * sinPhi
      + (4 * I) * cspeed * om0 * t * wy * wy * z * z * sinPhi
      + 2 * cspeed * om0 * om0 * tauG * tauG * wy * wy * z * z * sinPhi
      - (2 * I) * om0 * wy * wy * z * z * z * sinPhi
      - 4 * cspeed * om0 * t * wy * wy * y * rho0 * tanPhi2
      + 4 * om0 * wy * wy * y * z * rho0 * tanPhi2
      + (2 * I) * y * y * (
            cspeed * om0 * t * wy * wy + I * cspeed * y * y - om0 * wy * wy * z
          ) * cosPhi * cosPhi / cosPhi2 / cosPhi2 * tanPhi2
      + (2 * I) * cspeed * k * wy * wy * x * x * z * tanPhi2 * tanPhi2
      - 2 * om0 * wy * wy * y * y * rho0 * tanPhi2 * tanPhi2
      + 4 * cspeed * om0 * t * wy * wy * z * rho0 * tanPhi2 * tanPhi2
      + (4 * I) * cspeed * y * y * z * rho0 * tanPhi2 * tanPhi2
      - 4 * om0 * wy * wy * z * z * rho0 * tanPhi2 * tanPhi2
      - (2 * I) * om0 * wy * wy * y * y * z * sinPhi * tanPhi2 * tanPhi2
      - 2 * y * cosPhi * (
            om0 * (
              cspeed * cspeed * (
                  I * t * t * wy * wy
                  + om0 * t * tauG * tauG * wy * wy
                  + I * tauG * tauG * y * y
                )
              - cspeed * ((2 * I) * t
              + om0 * tauG * tauG) * wy * wy * z
              + I * wy * wy * z * z
              )
            + (2 * I) * om0 * wy * wy * y * (cspeed * t - z) * tanPhi2
            + I * tanPhi2 * tanPhi2 * (
                ((-4 : ℂ) * I) * cspeed * y * y * z
                + om0 * wy * wy * (y * y - 4 * (cspeed * t - z) * z)
              )
          )
    ) / (2 * cspeed * wy * wy * helpVar1 * helpVar2)
  let helpVar5 : ℂ := cspeed * om0 * tauG * tauG
      - (8 * I) * y * tanPol
          / sinPhi / sinPhi * sinPhi2 * sinPhi2 * sinPhi2 * sinPhi2
      - (2 * I) * z * tanPhi2 * tanPhi2
  let result : ℂ := (Complex.exp helpVar4 * tauG
      * csqrt ((cspeed * om0 * rho0) / helpVar3)) / csqrt helpVar5
  result.re

/-- Transcription of `TWTSFieldB::calcTWTSBy`: the first magnetic-field
closed form, with helper variables mirroring the source. -/
def calcTWTSBy (C : SimConstants) (p : TWTSParams) (pos : Vec3)
    (time : ℝ) : ℝ :=
  let UNIT_SPEED : ℝ := C.SPEED_OF_LIGHT_SI
  let UNIT_TIME : ℝ := C.DELTA_T_SI
  let UNIT_LENGTH : ℝ := UNIT_TIME * UNIT_SPEED
  let beta0 : ℝ := p.beta_0
  let phiReal : ℝ := p.phi
  let alphaTilt : ℝ :=
    atan2 (1 - beta0 * Real.cos phiReal) (beta0 * Real.sin phiReal)
  let phiTv : ℝ := 2 * alphaTilt
  let cspeedR : ℝ := 1
  let lambda0R : ℝ := p.wavelength_SI / UNIT_LENGTH
  let om0R : ℝ := 2 * π * cspeedR / lambda0R * UNIT_TIME
  let tauGR : ℝ := p.pulselength_SI * 2 / UNIT_TIME
  let w0R : ℝ := p.w_x_SI / UNIT_LENGTH
  let rho0R : ℝ := π * w0R * w0R / lambda0R / UNIT_LENGTH
  let wyR : ℝ := p.w_y_SI / UNIT_LENGTH
  let kR : ℝ := 2 * π / lambda0R * UNIT_LENGTH
  let I : ℂ := Complex.I
  let cspeed : ℂ := (cspeedR : ℂ)
  let om0 : ℂ := (om0R : ℂ)
  let tauG : ℂ := (tauGR : ℂ)
  let rho0 : ℂ := (rho0R : ℂ)
  let wy : ℂ := (wyR : ℂ)
  let k : ℂ := (kR : ℂ)
  let x : ℂ := ((pos.x / UNIT_LENGTH : ℝ) : ℂ)
  let y : ℂ := ((pos.y / UNIT_LENGTH : ℝ) : ℂ)
  let z : ℂ := ((pos.z / UNIT_LENGTH : ℝ) : ℂ)
  let t : ℂ := ((time / UNIT_TIME : ℝ) : ℂ)
  let sinPhi : ℂ := ((Real.sin phiTv : ℝ) : ℂ)
  let cosPhi : ℂ := ((Real.cos phiTv : ℝ) : ℂ)
  let cosPhi2 : ℂ := ((Real.cos (phiTv / 2) : ℝ) : ℂ)
  let tanPhi2 : ℂ := ((Real.tan (phiTv / 2) : ℝ) : ℂ)
  let tanPol : ℂ := ((Real.tan (π / 2 - phiTv) : ℝ) : ℂ)
  let helpVar1 : ℂ := rho0 + I * y * cosPhi + I * z * sinPhi
  let helpVar2 : ℂ := cspeed * om0 * tauG * tauG
      + (2 * I) * (-z - y * tanPol) * tanPhi2 * tanPhi2
  let helpVar3 : ℂ := I * rho0 - y * cosPhi - z * sinPhi
  let helpVar4 : ℂ := (-1 : ℂ) * (
      cspeed * cspeed * k * om0 * tauG * tauG * wy * wy * x * x
      + 2 * cspeed * cspeed * om0 * t * t * wy * wy * rho0
      - (2 * I) * cspeed * cspeed * om0 * om0 * t * tauG * tauG * wy * wy * rho0
      + 2 * cspeed * cspeed * om0 * tauG * tauG * y * y * rho0
      - 4 * cspeed * om0 * t * wy * wy * z * rho0
      + (2 * I) * cspeed * om0 * om0 * tauG * tauG * wy * wy * z * rho0
      + 2 * om0 * wy * wy * z * z * rho0
      + 4 * cspeed * om0 * t * wy * wy * y * rho0 * tanPhi2
      - 4 * om0 * wy * wy * y * z * rho0 * tanPhi2
      - (2 * I) * cspeed * k * wy * wy * x * x * z * tanPhi2 * tanPhi2
      + 2 * om0 * wy * wy * y * y * rho0 * tanPhi2 * tanPhi2
      - 4 * cspeed * om0 * t * wy * wy * z * rho0 * tanPhi2 * tanPhi2
      - (4 * I) * cspeed * y * y * z * rho0 * tanPhi2 * tanPhi2
      + 4 * om0 * wy * wy * z * z * rho0 * tanPhi2 * tanPhi2
      - (2 * I) * cspeed * k * wy * wy * x * x * y * tanPol * tanPhi2 * tanPhi2
      - 4 * cspeed * om0 * t * wy * wy * y * rho0 * tanPol * tanPhi2 * tanPhi2
      - (4 * I) * cspeed * y * y * y * rho0 * tanPol * tanPhi2 * tanPhi2
      + 4 * om0 * wy * wy * y * z * rho0 * tanPol * tanPhi2 * tanPhi2
      + 2 * z * sinPhi * (
            om0 * (
              cspeed * cspeed * (
                  I * t * t * wy * wy
                  + om0 * t * tauG * tauG * wy * wy
                  + I * tauG * tauG * y * y
                )
              - cspeed * ((2 * I) * t + om0 * tauG * tauG) * wy * wy * z
              + I * wy * wy * z * z
              )
            + (2 * I) * om0 * wy * wy * y * (cspeed * t - z) * tanPhi2
            + I * tanPhi2 * tanPhi2 * (
                ((-2 : ℂ) * I) * cspeed * y * y * z
                + om0 * wy * wy * (y * y - 2 * (cspeed * t - z) * z)
              )
          )
      + 2 * y * cosPhi * (
            om0 * (
              cspeed * cspeed * (
                  I * t * t * wy * wy
                  + om0 * t * tauG * tauG * wy * wy
                  + I * tauG * tauG * y * y
                )
              - cspeed * ((2 * I) * t + om0 * tauG * tauG) * wy * wy * z
              + I * wy * wy * z * z
              )
            + (2 * I) * om0 * wy * wy * y * (cspeed * t - z) * tanPhi2
            + I * (
                ((-4 : ℂ) * I) * cspeed * y * y * z
                + om0 * wy * wy * (y * y - 4 * (cspeed * t - z) * z)
                - 2 * y * (
                    cspeed * om0 * t * wy * wy
                    + I * cspeed * y * y
                    - om0 * wy * wy * z
                  ) * tanPol
              ) * tanPhi2 * tanPhi2
          )
    ) / (2 * cspeed * wy * wy * helpVar1 * helpVar2)
  let helpVar5 : ℂ := (-I) * cspeed * om0 * tauG * tauG
      + (-z - y * tanPol) * tanPhi2 * tanPhi2 * 2
  let helpVar6 : ℂ := (cspeed * (cspeed * om0 * tauG * tauG + (2 * I)
      * (-z - y * tanPol) * tanPhi2 * tanPhi2)) / (om0 * rho0)
  let result : ℂ := (Complex.exp helpVar4 * tauG / cosPhi2 / cosPhi2
      * (rho0 + I * y * cosPhi + I * z * sinPhi)
      * (
          (2 * I) * cspeed * t + cspeed * om0 * tauG * tauG - (4 * I) * z
          + cspeed * ((2 * I) * t + om0 * tauG * tauG) * cosPhi
          + (2 * I) * y * tanPhi2
        ) * cpowr helpVar3 (-1.5)
    ) / (2 * helpVar5 * csqrt helpVar6)
  result.re

/-- Transcription of `TWTSFieldB::calcTWTSBz`: the second magnetic-field
closed form, with helper variables mirroring the source. -/
def calcTWTSBz (C : SimConstants) (p : TWTSParams) (pos : Vec3)
    (time : ℝ) : ℝ :=
  let UNIT_SPEED : ℝ := C.SPEED_OF_LIGHT_SI
  let UNIT_TIME : ℝ := C.DELTA_T_SI
  let UNIT_LENGTH : ℝ := UNIT_TIME * UNIT_SPEED
  let beta0 : ℝ := p.beta_0
  let phiReal : ℝ := p.phi
  let alphaTilt : ℝ :=
    atan2 (1 - beta0 * Real.cos phiReal) (beta0 * Real.sin phiReal)
  let phiTv : ℝ := 2 * alphaTilt
  let cspeedR : ℝ := 1
  let lambda0R : ℝ := p.wavelength_SI / UNIT_LENGTH
  let om0R : ℝ := 2 * π * cspeedR / lambda0R * UNIT_TIME
  let tauGR : ℝ := p.pulselength_SI * 2 / UNIT_TIME
  let w0R : ℝ := p.w_x_SI / UNIT_LENGTH
  let rho0R : ℝ := π * w0R * w0R / lambda0R / UNIT_LENGTH
  let wyR : ℝ := p.w_y_SI / UNIT_LENGTH
  let kR : ℝ := 2 * π / lambda0R * UNIT_LENGTH
  let I : ℂ := Complex.I
  let cspeed : ℂ := (cspeedR : ℂ)
  let om0 : ℂ := (om0R : ℂ)
  let tauG : ℂ := (tauGR : ℂ)
  let rho0 : ℂ := (rho0R : ℂ)
  let wy : ℂ := (wyR : ℂ)
  let k : ℂ := (kR : ℂ)
  let x : ℂ := ((pos.x / UNIT_LENGTH : ℝ) : ℂ)
  let y : ℂ := ((pos.y / UNIT_LENGTH : ℝ) : ℂ)
  let z : ℂ := ((pos.z / UNIT_LENGTH : ℝ) : ℂ)
  let t : ℂ := ((time / UNIT_TIME : ℝ) : ℂ)
  let sinPhi : ℂ := ((Real.sin phiTv : ℝ) : ℂ)
  let cosPhi : ℂ := ((Real.cos phiTv : ℝ) : ℂ)
  let sinPhi2 : ℂ := ((Real.sin (phiTv / 2) : ℝ) : ℂ)
  let cosPhi2 : ℂ := ((Real.cos (phiTv / 2) : ℝ) : ℂ)
  let tanPhi2 : ℂ := ((Real.tan (phiTv / 2) : ℝ) : ℂ)
  let tanPol : ℂ := ((Real.tan (π / 2 - phiTv) : ℝ) : ℂ)
  let helpVar1 : ℂ := -(cspeed * z) - cspeed * y * tanPol
      + I * cspeed * rho0 / sinPhi
  let helpVar2 : ℂ := I * rho0 - y * cosPhi - z * sinPhi
  let helpVar3 : ℂ := helpVar2 * cspeed
  let helpVar4 : ℂ := cspeed * om0 * tauG * tauG
      - I * y * cosPhi / cosPhi2 / cosPhi2 * tanPhi2
      - (2 * I) * z * tanPhi2 * tanPhi2
  let helpVar5 : ℂ := 2 * cspeed * t - I * cspeed * om0 * tauG * tauG
      - 2 * z + 8 * y / sinPhi / sinPhi / sinPhi
          * sinPhi2 * sinPhi2 * sinPhi2 * sinPhi2
      - 2 * z * tanPhi2 * tanPhi2
  let helpVar6 : ℂ := (
      (om0 * y * rho0 / cosPhi2 / cosPhi2 / cosPhi2 / cosPhi2) / helpVar1
      - ((2 * I) * k * x * x) / helpVar2
      - (I * om0 * om0 * tauG * tauG * rho0) / helpVar2
      - ((4 * I) * y * y * rho0) / (wy * wy * helpVar2)
      + (om0 * om0 * tauG * tauG * y * cosPhi) / helpVar2
      + (4 * y * y * y * cosPhi) / (wy * wy * helpVar2)
      + (om0 * om0 * tauG * tauG * z * sinPhi) / helpVar2
      + (4 * y * y * z * sinPhi) / (wy * wy * helpVar2)
      + ((2 * I) * om0 * y * y * cosPhi / cosPhi2 / cosPhi2 * tanPhi2) / helpVar3
      + (om0 * y * rho0 * cosPhi / cosPhi2 / cosPhi2 * tanPhi2) / helpVar3
      + (I * om0 * y * y * cosPhi * cosPhi / cosPhi2 / cosPhi2 * tanPhi2) / helpVar3
      + ((4 * I) * om0 * y * z * tanPhi2 * tanPhi2) / helpVar3
      - (2 * om0 * z * rho0 * tanPhi2 * tanPhi2) / helpVar3
      - ((2 * I) * om0 * z * z * sinPhi * tanPhi2 * tanPhi2) / helpVar3
      - (om0 * helpVar5 * helpVar5) / (cspeed * helpVar4)
    ) / 4
  let helpVar7 : ℂ := cspeed * om0 * tauG * tauG
      - I * y * cosPhi / cosPhi2 / cosPhi2 * tanPhi2
      - (2 * I) * z * tanPhi2 * tanPhi2
  let result : ℂ := ((2 * I) * Complex.exp helpVar6 * tauG * tanPhi2
      * (cspeed * t - z + y * tanPhi2)
      * csqrt ((om0 * rho0) / helpVar3)
    ) / cpowr helpVar7 1.5
  result.re

/-- External collaborator data for a 3-D build: the global
`picongpu::cellSize` and the per-component Yee-grid fractional offsets
returned by `fieldSolver::NumericalCellType::getEFieldPosition()` and
`getBFieldPosition()`. -/
structure Grid3 where
  cellSize : Vec3
  eFieldPosition : Fin 3 → Vec3
  bFieldPosition : Fin 3 → Vec3

/-- External collaborator data for a 2-D build. -/
structure Grid2 where
  cellSize : Vec2
  eFieldPosition : Fin 3 → Vec2
  bFieldPosition : Fin 3 → Vec2

/-- Member state of a constructed `TWTSFieldE` / `TWTSFieldB` object in a
3-D build (the two classes have the same member layout): constructor
parameters, `dt`, `unit_length`, the captured `halfSimSize`, and the
`tdelay` precomputed by the constructor. -/
structure TWTSField3State where
  params : TWTSParams
  dt : ℝ
  unit_length : ℝ
  halfSimSize : Nat3
  tdelay : ℝ

/-- Member state of a constructed `TWTSFieldE` / `TWTSFieldB` object in a
2-D build. -/
structure TWTSField2State where
  params : TWTSParams
  dt : ℝ
  unit_length : ℝ
  halfSimSize : Nat2
  tdelay : ℝ

/-- The `TWTSFieldE` constructor in a 3-D build: stores the parameters,
`dt = SI::DELTA_T_SI` and `unit_length = UNIT_LENGTH`, captures
`halfSimSize = subGrid.getGlobalDomain().size / 2` and computes `tdelay`
through the Time-Delay Calculator. -/
def TWTSFieldE3_construct (C : SimConstants) (halfSimSize : Nat3)
    (p : TWTSParams) : TWTSField3State :=
  { params := p, dt := C.DELTA_T_SI, unit_length := C.UNIT_LENGTH,
    halfSimSize := halfSimSize,
    tdelay := get_tdelay_SI_DIM3 C p.auto_tdelay p.tdelay_user_SI halfSimSize
      p.pulselength_SI p.focus_y_SI p.phi p.beta_0 }

/-- The `TWTSFieldB` constructor in a 3-D build (identical body to the
electric one). -/
def TWTSFieldB3_construct (C : SimConstants) (halfSimSize : Nat3)
    (p : TWTSParams) : TWTSField3State :=
  TWTSFieldE3_construct C halfSimSize p

/-- The `TWTSFieldE`/`TWTSFieldB` constructor in a 2-D build. -/
def TWTSField2_construct (C : SimConstants) (halfSimSize : Nat2)
    (p : TWTSParams) : TWTSField2State :=
  { params := p, dt := C.DELTA_T_SI, unit_length := C.UNIT_LENGTH,
    halfSimSize := halfSimSize,
    tdelay := get_tdelay_SI_DIM2 C p.auto_tdelay p.tdelay_user_SI halfSimSize
      p.pulselength_SI p.focus_y_SI p.phi p.beta_0 }

/-- Position Mapper `TWTSFieldE::getEfieldPositions_SI` in a 3-D build:
per field component, adds the cell index minus the laser origin to the
Yee-grid fractional offset, scales by the physical cell dimensions and
applies the Rotation Transform. -/
def getEfieldPositions_SI3 (g : Grid3) (f : TWTSField3State)
    (cellIdx : Idx3) : Fin 3 → Vec3 :=
  let cellDimensions : Vec3 :=
    ⟨g.cellSize.x * f.unit_length, g.cellSize.y * f.unit_length,
     g.cellSize.z * f.unit_length⟩
  let laserOrigin : Vec3 :=
    ⟨(f.halfSimSize.x : ℝ), f.params.focus_y_SI / cellDimensions.y,
     (f.halfSimSize.z : ℝ)⟩
  fun i =>
    let eFieldPositions_i : Vec3 :=
      g.eFieldPosition i + (cellIdx.toVec - laserOrigin)
    let eFieldPositions_SI_i : Vec3 := eFieldPositions_i.cmul cellDimensions
    rotateField3 eFieldPositions_SI_i f.params.phi

/-- Position Mapper `TWTSFieldB::getBfieldPositions_SI<DIM3>`: identical to
the electric-field version but with the magnetic Yee-grid offsets. -/
def getBfieldPositions_SI3 (g : Grid3) (f : TWTSField3State)
    (cellIdx : Idx3) : Fin 3 → Vec3 :=
  let cellDimensions : Vec3 :=
    ⟨g.cellSize.x * f.unit_length, g.cellSize.y * f.unit_length,
     g.cellSize.z * f.unit_length⟩
  let laserOrigin : Vec3 :=
    ⟨(f.halfSimSize.x : ℝ), f.params.focus_y_SI / cellDimensions.y,
     (f.halfSimSize.z : ℝ)⟩
  fun i =>
    let bFieldPositions_i : Vec3 :=
      g.bFieldPosition i + (cellIdx.toVec - laserOrigin)
    let bFieldPositions_SI_i : Vec3 := bFieldPositions_i.cmul cellDimensions
    rotateField3 bFieldPositions_SI_i f.params.phi

/-- Position Mapper `TWTSFieldE::getEfieldPositions_SI` in a 2-D build:
the 2-D Rotation Transform (which bakes in the model-axis relabeling) is
applied directly to the scaled offset position. -/
def getEfieldPositions_SI2 (g : Grid2) (f : TWTSField2State)
    (cellIdx : Idx2) : Fin 3 → Vec2 :=
  let cellDimensions : Vec2 :=
    ⟨g.cellSize.x * f.unit_length, g.cellSize.y * f.unit_length⟩
  let laserOrigin : Vec2 :=
    ⟨(f.halfSimSize.x : ℝ), f.params.focus_y_SI / cellDimensions.y⟩
  fun i =>
    let eFieldPositions_i : Vec2 :=
      g.eFieldPosition i + (cellIdx.toVec - laserOrigin)
    let eFieldPositions_SI_i : Vec2 := eFieldPositions_i.cmul cellDimensions
    rotateField2 eFieldPositions_SI_i f.params.phi

/-- Position Mapper `TWTSFieldB::getBfieldPositions_SI<DIM2>`: swaps the
x- and y-components of the scaled position (the simulation x and model z
axis exchange) before applying the 2-D Rotation Transform. -/
def getBfieldPositions_SI2 (g : Grid2) (f : TWTSField2State)
    (cellIdx : Idx2) : Fin 3 → Vec2 :=
  let cellDimensions : Vec2 :=
    ⟨g.cellSize.x * f.unit_length, g.cellSize.y * f.unit_length⟩
  let laserOrigin : Vec2 :=
    ⟨(f.halfSimSize.x : ℝ), f.params.focus_y_SI / cellDimensions.y⟩
  fun i =>
    let bFieldPositions_i : Vec2 :=
      g.bFieldPosition i + (cellIdx.toVec - laserOrigin)
    let bFieldPositions_SI_i : Vec2 := bFieldPositions_i.cmul cellDimensions
    let swapped : Vec2 := ⟨bFieldPositions_SI_i.y, bFieldPositions_SI_i.x⟩
    rotateField2 swapped f.params.phi

/-- Dimensional Specializer `TWTSFieldE::getTWTSEfield_Normalized<DIM3>`:
copies all `simDim = 3` components of the Ex-offset position (index 0) into
a zero-initialized 3-vector and returns `(E, 0, 0)`. -/
def getTWTSEfield_Normalized3 (C : SimConstants) (p : TWTSParams)
    (eFieldPositions_SI : Fin 3 → Vec3) (time : ℝ) : Vec3 :=
  let pos : Vec3 := ⟨(eFieldPositions_SI 0).x, (eFieldPositions_SI 0).y,
    (eFieldPositions_SI 0).z⟩
  ⟨calcTWTSEx C p pos time, 0, 0⟩

/-- The zero-initialized `float3_64 pos(0.0)` of the 2-D specializers after
the copy loop `for(i = 1; i < simDim; ++i) pos[i] = fieldPositions_SI[k][i]`
with `simDim = 2`: only the y-component of the mapped 2-D position is
copied; the x- and z-components stay 0. -/
def pos2of (P : Fin 3 → Vec2) (c : Fin 3) : Vec3 := ⟨0, (P c).y, 0⟩

/-- Dimensional Specializer `TWTSFieldE::getTWTSEfield_Normalized<DIM2>`:
uses the Ez-offset position (index 2) and returns `(0, 0, E)`. -/
def getTWTSEfield_Normalized2 (C : SimConstants) (p : TWTSParams)
    (eFieldPositions_SI : Fin 3 → Vec2) (time : ℝ) : Vec3 :=
  ⟨0, 0, calcTWTSEx C p (pos2of eFieldPositions_SI 2) time⟩

/-- Dimensional Specializer `TWTSFieldB::getTWTSBfield_Normalized<DIM3>`:
evaluates both magnetic closed forms at both the By-offset (index 1) and
Bz-offset (index 2) positions and recombines them with the back-rotation. -/
def getTWTSBfield_Normalized3 (C : SimConstants) (p : TWTSParams)
    (bFieldPositions_SI : Fin 3 → Vec3) (time : ℝ) : Vec3 :=
  let pos : Fin 3 → Vec3 := fun c =>
    ⟨(bFieldPositions_SI c).x, (bFieldPositions_SI c).y,
     (bFieldPositions_SI c).z⟩
  let By_By : ℝ := calcTWTSBy C p (pos 1) time
  let Bz_By : ℝ := calcTWTSBz C p (pos 1) time
  let By_Bz : ℝ := calcTWTSBy C p (pos 2) time
  let Bz_Bz : ℝ := calcTWTSBz C p (pos 2) time
  let By_rot : ℝ := -Real.sin p.phi * By_By + Real.cos p.phi * Bz_By
  let Bz_rot : ℝ := -Real.cos p.phi * By_Bz - Real.sin p.phi * Bz_Bz
  ⟨0, By_rot, Bz_rot⟩

/-- Dimensional Specializer `TWTSFieldB::getTWTSBfield_Normalized<DIM2>`:
analogous to the 3-D case but over `(By, -Bz) -> (By, Bx)`, with the
Bx-offset position (index 0) replacing the Bz-offset one. -/
def getTWTSBfield_Normalized2 (C : SimConstants) (p : TWTSParams)
    (bFieldPositions_SI : Fin 3 → Vec2) (time : ℝ) : Vec3 :=
  let pos : Fin 3 → Vec3 := fun c => pos2of bFieldPositions_SI c
  let By_By : ℝ := calcTWTSBy C p (pos 1) time
  let Bx_By : ℝ := -calcTWTSBz C p (pos 1) time
  let By_Bx : ℝ := calcTWTSBy C p (pos 0) time
  let Bx_Bx : ℝ := -calcTWTSBz C p (pos 0) time
  let By_rot : ℝ := -Real.sin p.phi * By_By + Real.cos p.phi * Bx_By
  let Bx_rot : ℝ := -Real.cos p.phi * By_Bx - Real.sin p.phi * Bx_Bx
  ⟨0, By_rot, Bx_rot⟩

/-- Field Functor `TWTSFieldE::operator()` in a 3-D build. -/
def TWTSFieldE3_op (C : SimConstants) (g : Grid3) (f : TWTSField3State)
    (cellIdx : Idx3) (currentStep : ℕ) : Vec3 :=
  let time_SI : ℝ := (currentStep : ℝ) * f.dt - f.tdelay
  getTWTSEfield_Normalized3 C f.params (getEfieldPositions_SI3 g f cellIdx)
    time_SI

/-- Field Functor `TWTSFieldB::operator()` in a 3-D build. -/
def TWTSFieldB3_op (C : SimConstants) (g : Grid3) (f : TWTSField3State)
    (cellIdx : Idx3) (currentStep : ℕ) : Vec3 :=
  let time_SI : ℝ := (currentStep : ℝ) * f.dt - f.tdelay
  getTWTSBfield_Normalized3 C f.params (getBfieldPositions_SI3 g f cellIdx)
    time_SI

/-- Field Functor `TWTSFieldE::operator()` in a 2-D build. -/
def TWTSFieldE2_op (C : SimConstants) (g : Grid2) (f : TWTSField2State)
    (cellIdx : Idx2) (currentStep : ℕ) : Vec3 :=
  let time_SI : ℝ := (currentStep : ℝ) * f.dt - f.tdelay
  getTWTSEfield_Normalized2 C f.params (getEfieldPositions_SI2 g f cellIdx)
    time_SI

/-- Field Functor `TWTSFieldB::operator()` in a 2-D build. -/
def TWTSFieldB2_op (C : SimConstants) (g : Grid2) (f : TWTSField2State)
    (cellIdx : Idx2) (currentStep : ℕ) : Vec3 :=
  let time_SI : ℝ := (currentStep : ℝ) * f.dt - f.tdelay
  getTWTSBfield_Normalized2 C f.params (getBfieldPositions_SI2 g f cellIdx)
    time_SI

/-- Explicit state-passing embedding of the const method
`TWTSFieldE::operator()` in a 3-D build: the body reads, never writes, the
object members, so the post-state equals the pre-state. -/
def TWTSFieldE3_call (C : SimConstants) (g : Grid3) (f : TWTSField3State)
    (cellIdx : Idx3) (currentStep : ℕ) : Vec3 × TWTSField3State :=
  (TWTSFieldE3_op C g f cellIdx currentStep, f)

/-- Explicit state-passing embedding of `TWTSFieldB::operator()` (3-D). -/
def TWTSFieldB3_call (C : SimConstants) (g : Grid3) (f : TWTSField3State)
    (cellIdx : Idx3) (currentStep : ℕ) : Vec3 × TWTSField3State :=
  (TWTSFieldB3_op C g f cellIdx currentStep, f)

/-- Explicit state-passing embedding of `TWTSFieldE::operator()` (2-D). -/
def TWTSFieldE2_call (C : SimConstants) (g : Grid2) (f : TWTSField2State)
    (cellIdx : Idx2) (currentStep : ℕ) : Vec3 × TWTSField2State :=
  (TWTSFieldE2_op C g f cellIdx currentStep, f)

/-- Explicit state-passing embedding of `TWTSFieldB::operator()` (2-D). -/
def TWTSFieldB2_call (C : SimConstants) (g : Grid2) (f : TWTSField2State)
    (cellIdx : Idx2) (currentStep : ℕ) : Vec3 × TWTSField2State :=
  (TWTSFieldB2_op C g f cellIdx currentStep, f)

/-- C3: when auto delay is enabled, the Time-Delay Calculator returns
`(y1 + y2 + y3) / (c * beta0)` with `eta = π/2 - phi/2`,
`y1 = halfDomainExtent * cellSize * |cos eta|` (depth axis in 3-D, width
axis in 2-D), `y2 = 3 * pulseLength * c / cos eta` and `y3 = focusY`. -/
theorem tdelay_auto_formula (C : SimConstants) (u : ℝ) (h3 : Nat3) (h2 : Nat2)
    (pl fy phi beta : ℝ) :
    get_tdelay_SI_DIM3 C true u h3 pl fy phi beta =
      ((h3.z : ℝ) * C.CELL_DEPTH_SI * |Real.cos (π / 2 - phi / 2)|
        + 3 * (pl * C.SPEED_OF_LIGHT_SI) / Real.cos (π / 2 - phi / 2)
        + fy) / (C.SPEED_OF_LIGHT_SI * beta) ∧
    get_tdelay_SI_DIM2 C true u h2 pl fy phi beta =
      ((h2.x : ℝ) * C.CELL_WIDTH_SI * |Real.cos (π / 2 - phi / 2)|
        + 3 * (pl * C.SPEED_OF_LIGHT_SI) / Real.cos (π / 2 - phi / 2)
        + fy) / (C.SPEED_OF_LIGHT_SI * beta) :=
  ⟨rfl, rfl⟩

/-- C7: with the auto-delay flag false, the Time-Delay Calculator returns
the user-supplied delay unchanged, whatever the other parameters are, in
both the 3-D and the 2-D specialization. -/
theorem tdelay_user_passthrough (C : SimConstants) (u : ℝ) (h3 : Nat3)
    (h2 : Nat2) (pl fy phi beta : ℝ) :
    get_tdelay_SI_DIM3 C false u h3 pl fy phi beta = u ∧
    get_tdelay_SI_DIM2 C false u h2 pl fy phi beta = u :=
  ⟨rfl, rfl⟩

/-- C4: the 3-D magnetic specializer evaluates both closed forms at both
the By-offset (index 1) and Bz-offset (index 2) positions — four scalar
evaluations — and returns `(0, By_out, Bz_out)` with
`By_out = -sin(phi)*By(posByOffset) + cos(phi)*Bz(posByOffset)` and
`Bz_out = -cos(phi)*By(posBzOffset) - sin(phi)*Bz(posBzOffset)`. -/
theorem Bfield3_recombination (C : SimConstants) (p : TWTSParams)
    (P : Fin 3 → Vec3) (t : ℝ) :
    getTWTSBfield_Normalized3 C p P t =
      ⟨0,
       -Real.sin p.phi * calcTWTSBy C p (P 1) t
         + Real.cos p.phi * calcTWTSBz C p (P 1) t,
       -Real.cos p.phi * calcTWTSBy C p (P 2) t
         - Real.sin p.phi * calcTWTSBz C p (P 2) t⟩ :=
  rfl

/-- C6: in 3-D, each mapped field position (electric and magnetic) is the
Rotation Transform of `(cellIndex + YeeOffset - laserOrigin) * cellSize`,
where `laserOrigin` is the domain half-extent in cells with its y-entry
moved to `focusY / cellSizeY`. -/
theorem fieldPositions3_spec (g : Grid3) (f : TWTSField3State)
    (cellIdx : Idx3) (i : Fin 3) :
    getEfieldPositions_SI3 g f cellIdx i =
      rotateField3 ((g.eFieldPosition i + (cellIdx.toVec -
        ⟨(f.halfSimSize.x : ℝ),
         f.params.focus_y_SI / (g.cellSize.y * f.unit_length),
         (f.halfSimSize.z : ℝ)⟩)).cmul
        ⟨g.cellSize.x * f.unit_length, g.cellSize.y * f.unit_length,
         g.cellSize.z * f.unit_length⟩) f.params.phi ∧
    getBfieldPositions_SI3 g f cellIdx i =
      rotateField3 ((g.bFieldPosition i + (cellIdx.toVec -
        ⟨(f.halfSimSize.x : ℝ),
         f.params.focus_y_SI / (g.cellSize.y * f.unit_length),
         (f.halfSimSize.z : ℝ)⟩)).cmul
        ⟨g.cellSize.x * f.unit_length, g.cellSize.y * f.unit_length,
         g.cellSize.z * f.unit_length⟩) f.params.phi :=
  ⟨rfl, rfl⟩

/-- C5: in 2-D the electric functor's single evaluation uses the Ez-offset
position (index 2) and lands in the simulation's z-component, returning
`(0, 0, E)`; the magnetic specializer recombines four evaluations over
`(By, -Bz) -> (By, Bx)` (the model Bz sign-flipped into simulation -Bx,
using the Bx-offset position, index 0); and the magnetic position mapper
applies the x-y axis swap to each sub-position before the rotation. -/
theorem twoD_specializer_spec (C : SimConstants) (g : Grid2)
    (f : TWTSField2State) (cellIdx : Idx2) (n : ℕ) (p : TWTSParams)
    (P : Fin 3 → Vec2) (t : ℝ) :
    TWTSFieldE2_op C g f cellIdx n =
      ⟨0, 0, calcTWTSEx C f.params
        (pos2of (getEfieldPositions_SI2 g f cellIdx) 2)
        ((n : ℝ) * f.dt - f.tdelay)⟩ ∧
    getTWTSBfield_Normalized2 C p P t =
      ⟨0,
       -Real.sin p.phi * calcTWTSBy C p (pos2of P 1) t
         + Real.cos p.phi * (-calcTWTSBz C p (pos2of P 1) t),
       -Real.cos p.phi * calcTWTSBy C p (pos2of P 0) t
         - Real.sin p.phi * (-calcTWTSBz C p (pos2of P 0) t)⟩ ∧
    (∀ i : Fin 3,
      getBfieldPositions_SI2 g f cellIdx i =
        rotateField2
          ⟨((g.bFieldPosition i + (cellIdx.toVec -
              ⟨(f.halfSimSize.x : ℝ),
               f.params.focus_y_SI / (g.cellSize.y * f.unit_length)⟩)).cmul
              ⟨g.cellSize.x * f.unit_length,
               g.cellSize.y * f.unit_length⟩).y,
           ((g.bFieldPosition i + (cellIdx.toVec -
              ⟨(f.halfSimSize.x : ℝ),
               f.params.focus_y_SI / (g.cellSize.y * f.unit_length)⟩)).cmul
              ⟨g.cellSize.x * f.unit_length,
               g.cellSize.y * f.unit_length⟩).x⟩
          f.params.phi) :=
  ⟨rfl, rfl, fun _ => rfl⟩

/-- C9: each field functor call is a pure function of the stored parameters
and the two inputs: the state-passing embedding of the const `operator()`
leaves the object state unchanged, and a repeated invocation with the same
cell index and timestep returns the same field vector, in 3-D and 2-D, for
both the electric and the magnetic functor. -/
theorem functor_call_pure (C : SimConstants) (g3 : Grid3) (g2 : Grid2)
    (f3 : TWTSField3State) (f2 : TWTSField2State) (c3 : Idx3) (c2 : Idx2)
    (n : ℕ) :
    ((TWTSFieldE3_call C g3 f3 c3 n).2 = f3 ∧
      (TWTSFieldE3_call C g3 (TWTSFieldE3_call C g3 f3 c3 n).2 c3 n).1 =
        (TWTSFieldE3_call C g3 f3 c3 n).1) ∧
    ((TWTSFieldB3_call C g3 f3 c3 n).2 = f3 ∧
      (TWTSFieldB3_call C g3 (TWTSFieldB3_call C g3 f3 c3 n).2 c3 n).1 =
        (TWTSFieldB3_call C g3 f3 c3 n).1) ∧
    ((TWTSFieldE2_call C g2 f2 c2 n).2 = f2 ∧
      (TWTSFieldE2_call C g2 (TWTSFieldE2_call C g2 f2 c2 n).2 c2 n).1 =
        (TWTSFieldE2_call C g2 f2 c2 n).1) ∧
    ((TWTSFieldB2_call C g2 f2 c2 n).2 = f2 ∧
      (TWTSFieldB2_call C g2 (TWTSFieldB2_call C g2 f2 c2 n).2 c2 n).1 =
        (TWTSFieldB2_call C g2 f2 c2 n).1) :=
  ⟨⟨rfl, rfl⟩, ⟨rfl, rfl⟩, ⟨rfl, rfl⟩, ⟨rfl, rfl⟩⟩

/-- C10: in every 2-D evaluation the model x-coordinate handed to the
closed-form evaluators is exactly 0 — the zero-initialized 3-vector only
receives the y-component of the mapped 2-D position — for the electric
functor (Ez-offset position) and all four magnetic evaluations. -/
theorem twoD_model_x_zero (C : SimConstants) (p : TWTSParams)
    (P : Fin 3 → Vec2) (t : ℝ) :
    (∀ c : Fin 3, (pos2of P c).x = 0) ∧
    getTWTSEfield_Normalized2 C p P t =
      ⟨0, 0, calcTWTSEx C p ⟨0, (P 2).y, 0⟩ t⟩ ∧
    getTWTSBfield_Normalized2 C p P t =
      ⟨0,
       -Real.sin p.phi * calcTWTSBy C p ⟨0, (P 1).y, 0⟩ t
         + Real.cos p.phi * (-calcTWTSBz C p ⟨0, (P 1).y, 0⟩ t),
       -Real.cos p.phi * calcTWTSBy C p ⟨0, (P 0).y, 0⟩ t
         - Real.sin p.phi * (-calcTWTSBz C p ⟨0, (P 0).y, 0⟩ t)⟩ :=
  ⟨fun _ => rfl, rfl, rfl⟩

/-- C1 counterexample: applying the Rotation Transform formula with angle
`phi` and then with angle `-phi` does not return the original vector, even
at the concrete input `v = (0, 1, 0)`, `phi = 0` (the composition is the
rotation by π in the (y,z)-plane, i.e. negation). -/
theorem rotate_negPhi_not_inverse :
    rotateField3 (rotateField3 ⟨0, 1, 0⟩ 0) (-(0 : ℝ)) ≠ ⟨0, 1, 0⟩ := by
  intro h
  have hy := congrArg Vec3.y h
  norm_num [rotateField3] at hy

/-- C1 amended: since the forward formula is the rotation by `π/2 + phi`,
applying it with `phi` and then with `-phi` yields the negation of the
(y,z)-components; the algebraic inverse of the forward formula is instead
the transposed back-rotation used by the code to recombine the field
vectors, applied with the same `phi`. -/
theorem rotate_inverse_amended (v : Vec3) (phi : ℝ) :
    rotateField3 (rotateField3 v phi) (-phi) = ⟨v.x, -v.y, -v.z⟩ ∧
    rotateFieldBack3 (rotateField3 v phi) phi = v := by
  have hpyth := Real.sin_sq_add_cos_sq phi
  constructor
  · ext
    · rfl
    · simp only [rotateField3, Real.sin_neg, Real.cos_neg]
      linear_combination (-v.y) * hpyth
    · simp only [rotateField3, Real.sin_neg, Real.cos_neg]
      linear_combination (-v.z) * hpyth
  · ext
    · rfl
    · simp only [rotateField3, rotateFieldBack3]
      linear_combination v.y * hpyth
    · simp only [rotateField3, rotateFieldBack3]
      linear_combination v.z * hpyth

/-- C2 counterexample: `phi = -π/2` lies in the claimed validity range
`(-π, π]`, yet with `beta0 = 1` the tilt angle `phiT` differs from `phi`
(it is nonnegative — in fact `3π/2` — while `phi` is negative). -/
theorem phiT_neg_angle_counterexample :
    (-π < -(π / 2) ∧ -(π / 2) ≤ π) ∧ phiT 1 (-(π / 2)) ≠ -(π / 2) := by
  have hpi := Real.pi_pos
  refine ⟨⟨by linarith, by linarith⟩, ?_⟩
  have him : (0 : ℝ) ≤
      ((((1 : ℝ) * Real.sin (-(π / 2)) : ℝ) : ℂ)
        + (((1 : ℝ) - 1 * Real.cos (-(π / 2)) : ℝ) : ℂ) * Complex.I).im := by
    simp
  have harg := Complex.arg_nonneg_iff.mpr him
  have hT : (0 : ℝ) ≤ phiT 1 (-(π / 2)) := by
    unfold phiT atan2
    linarith
  intro hEq
  rw [hEq] at hT
  linarith

/-- C2 amended: the tilt angle is computed as
`phiT = 2*atan2(1 - beta0*cos(phi), beta0*sin(phi))`, and with `beta0 = 1`
it equals `phi` exactly for every incidence angle `phi` in `[0, π]`
(for negative `phi` it instead equals `phi + 2π`). -/
theorem phiT_eq_phi_amended (phi : ℝ) (h0 : 0 ≤ phi) (h1 : phi ≤ π) :
    phiT 1 phi = phi := by
  have hpi := Real.pi_pos
  rcases eq_or_lt_of_le h0 with h | h
  · rw [phiT, atan2, ← h]
    norm_num
  · have hs : 0 < Real.sin (phi / 2) :=
      Real.sin_pos_of_pos_of_lt_pi (by linarith) (by linarith)
    have hsin : Real.sin phi = 2 * Real.sin (phi / 2) * Real.cos (phi / 2) := by
      have h2 := Real.sin_two_mul (phi / 2)
      rw [show 2 * (phi / 2) = phi by ring] at h2
      linarith
    have hcos : 1 - Real.cos phi = 2 * Real.sin (phi / 2) ^ 2 := by
      have h2 := Real.cos_two_mul (phi / 2)
      rw [show 2 * (phi / 2) = phi by ring] at h2
      have h3 := Real.sin_sq_add_cos_sq (phi / 2)
      nlinarith
    have hz : (((1 : ℝ) * Real.sin phi : ℝ) : ℂ)
        + (((1 : ℝ) - 1 * Real.cos phi : ℝ) : ℂ) * Complex.I
        = ((2 * Real.sin (phi / 2) : ℝ) : ℂ)
          * ((Real.cos (phi / 2) : ℝ) + (Real.sin (phi / 2) : ℝ) * Complex.I) := by
      apply Complex.ext
      · simp only [Complex.add_re, Complex.ofReal_re, Complex.mul_re,
          Complex.ofReal_im, Complex.I_re, Complex.I_im, Complex.add_im]
        linear_combination hsin
      · simp only [Complex.add_im, Complex.ofReal_re, Complex.mul_re,
          Complex.ofReal_im, Complex.I_re, Complex.I_im, Complex.mul_im,
          Complex.add_re]
        linear_combination hcos
    have hmem : phi / 2 ∈ Set.Ioc (-π) π :=
      Set.mem_Ioc.mpr ⟨by linarith, by linarith⟩
    rw [phiT, atan2]
    rw [hz, Complex.arg_real_mul _
        (by positivity : (0 : ℝ) < 2 * Real.sin (phi / 2)),
      Complex.ofReal_cos, Complex.ofReal_sin,
      Complex.arg_cos_add_sin_mul_I hmem]
    ring

/-- C2 amended witness: at the concrete angle `phi = π/2` the hypotheses
hold and the tilt angle equals the incidence angle. -/
theorem phiT_eq_phi_amended_witness :
    (0 : ℝ) ≤ π / 2 ∧ π / 2 ≤ π ∧ phiT 1 (π / 2) = π / 2 :=
  ⟨by positivity, by linarith [Real.pi_pos],
    phiT_eq_phi_amended (π / 2) (by positivity) (by linarith [Real.pi_pos])⟩

/-- C8: for `phi = π/2`, `beta0 = 1`, pulse length 5e-15 s, `focusY = 0`,
half-domain depth 64 cells of depth 0.1e-6 m, the automatically computed
time delay is within 1% of 3.63e-14 s (the speed of light being the
spec-modelled SI constant; the remaining constants are irrelevant here and
set to 0). -/
theorem tdelay_example_value :
    |get_tdelay_SI_DIM3 ⟨SPEED_OF_LIGHT_SI, 0, 0, 0, 1e-7, 0⟩ true 0
        ⟨0, 0, 64⟩ 5e-15 0 (π / 2) 1 - 3.63e-14| ≤ 0.01 * 3.63e-14 := by
  have hs0 : (0 : ℝ) < Real.sqrt 2 := by positivity
  have hs2 : Real.sqrt 2 ^ 2 = 2 := Real.sq_sqrt (by norm_num)
  have hsl : (1.414213 : ℝ) < Real.sqrt 2 := by nlinarith
  have hsu : Real.sqrt 2 < 1.414214 := by nlinarith
  have hcos : Real.cos (π / 2 - π / 2 / 2) = Real.sqrt 2 / 2 := by
    rw [show π / 2 - π / 2 / 2 = π / 4 by ring, Real.cos_pi_div_four]
  have habs : |Real.sqrt 2 / 2| = Real.sqrt 2 / 2 :=
    abs_of_nonneg (by positivity)
  have hy2 : 3 * ((5e-15 : ℝ) * SPEED_OF_LIGHT_SI) / (Real.sqrt 2 / 2)
      = 4.49688687e-6 * Real.sqrt 2 := by
    rw [div_eq_iff (by positivity : (Real.sqrt 2 / 2) ≠ 0), SPEED_OF_LIGHT_SI]
    nlinarith
  simp only [get_tdelay_SI_DIM3, if_true, hcos, habs, hy2]
  rw [SPEED_OF_LIGHT_SI, abs_le]
  constructor <;> nlinarith [hsl, hsu]

end

end PicongpuTWTS
